import Mathlib

/-!
Shallow embedding of `src/dysart/measurement/dummy_devices.py`.

The Python module defines four classes built on a common `Device` base:
`Fizzer` (a carbonated liquid whose carbonation decays exponentially),
`Fizzmeter` (a noisy sensor with a drifting bias), `Carbonator` (an
actuator), plus empty stubs `Buzzer`/`BuzzMeter`.

Modelling conventions:
* Machine floats become real numbers (`ℝ`); `np.exp` becomes `Real.exp`.
* Wall-clock reads (`time.time()`) become an explicit `t_new : ℝ` argument
  to each operation; `time.sleep` has no effect on the model state.
* Each call to `np.random.normal(mean, stddev)` becomes an explicit real
  argument carrying the sampled value (the distribution is noted in a
  comment where it matters).
* Python attribute errors and division-by-zero errors become `Except`
  results; an attribute that no code path ever assigns is modelled as an
  `Option` field that stays `none`.
* Python inheritance is flattened: every concrete class carries the
  `Device` base fields (`decal_rate`, `cal_delay`, `cal_time`) directly.
-/

namespace DummyDevices

/-- Python exceptions that the embedded code can raise. -/
inductive PyError where
  | attributeError
  | zeroDivisionError
  deriving DecidableEq, Repr

/-- `day_sec = 60*60*24` from the module header. -/
noncomputable def day_sec : ℝ := 60 * 60 * 24

/-- `shifted_logistic(x) = 2/(1 + np.exp(-x)) - 1`. -/
noncomputable def shifted_logistic (x : ℝ) : ℝ :=
  2 / (1 + Real.exp (-x)) - 1

/-- State of a `Fizzer` instance: its own fields `carbonation` and
`time_constant_sec`, the inherited `Device` fields, and `fizziness`, an
attribute that no code path ever assigns (modelled as an `Option` that the
constructor leaves `none`). -/
structure Fizzer where
  carbonation : ℝ
  time_constant_sec : ℝ
  decal_rate : ℝ
  cal_delay : ℝ
  cal_time : ℝ
  fizziness : Option ℝ

/-- `Fizzer.__init__(carbonation, time_constant_days)`: sets `carbonation`
and `time_constant_sec = time_constant_days * day_sec`, then
`Device.__init__(0)` sets `decal_rate = 0`, `cal_delay = 1` and calls the
overriding `Fizzer.refresh`, which reads the clock and stores it in
`cal_time`.  No argument validation occurs anywhere on this path, and the
overridden `refresh` only touches `cal_time`, so construction always
succeeds. -/
noncomputable def Fizzer.init (carbonation time_constant_days t_new : ℝ) :
    Except PyError Fizzer :=
  Except.ok
    { carbonation := carbonation
      time_constant_sec := time_constant_days * day_sec
      decal_rate := 0
      cal_delay := 1
      cal_time := t_new
      fizziness := none }

/-- `Fizzer.refresh()`: reads the clock and delegates to `Device.refresh`,
which sets `cal_time`. -/
def Fizzer.refresh (s : Fizzer) (t_new : ℝ) : Fizzer :=
  { s with cal_time := t_new }

/-- `Fizzer.add_carbonation(c)`: `carbonation += c`, then `refresh()`. -/
noncomputable def Fizzer.add_carbonation (s : Fizzer) (carbonation t_new : ℝ) :
    Fizzer :=
  Fizzer.refresh { s with carbonation := s.carbonation + carbonation } t_new

/-- `Fizzer.get_carbonation()`: `dt = now - cal_time`;
`carbonation *= exp(-dt/time_constant_sec)`; store it; `refresh(now)`;
return it.  When `time_constant_sec = 0` the Python division
`dt/self.time_constant_sec` raises `ZeroDivisionError` before any field is
written. -/
noncomputable def Fizzer.get_carbonation (s : Fizzer) (t_new : ℝ) :
    Except PyError (ℝ × Fizzer) :=
  let dt := t_new - s.cal_time
  if s.time_constant_sec = 0 then Except.error PyError.zeroDivisionError
  else
    let carbonation := s.carbonation * Real.exp (-(dt / s.time_constant_sec))
    Except.ok (carbonation, { s with carbonation := carbonation, cal_time := t_new })

/-- `Fizzer.get_fizziness()`: `shifted_logistic` of `get_carbonation()`.
The result is returned, never stored in the `fizziness` attribute. -/
noncomputable def Fizzer.get_fizziness (s : Fizzer) (t_new : ℝ) :
    Except PyError (ℝ × Fizzer) :=
  match Fizzer.get_carbonation s t_new with
  | Except.error e => Except.error e
  | Except.ok (carbonation, s') => Except.ok (shifted_logistic carbonation, s')

/-- State of a fully constructed `Fizzmeter`: its own fields
`response_delay`, `uncertainty`, `bias`, plus the inherited `Device`
fields. -/
structure Fizzmeter where
  response_delay : ℝ
  uncertainty : ℝ
  bias : ℝ
  decal_rate : ℝ
  cal_delay : ℝ
  cal_time : ℝ

/-- A `Fizzmeter` object part-way through construction: the same fields,
except that `cal_time` may not have been assigned yet (Python objects gain
attributes only when first assigned). -/
structure FizzmeterPre where
  response_delay : ℝ
  uncertainty : ℝ
  bias : ℝ
  decal_rate : ℝ
  cal_delay : ℝ
  cal_time : Option ℝ

/-- `Fizzmeter.refresh()` run on a possibly part-constructed object:
`dt = now - self.cal_time` (an `AttributeError` if `cal_time` was never
assigned); `bias += normal(0, dt * decal_rate)`; `cal_time = now`.
`drift` carries the Gaussian sample. -/
noncomputable def Fizzmeter.refreshPre (s : FizzmeterPre) (t_new drift : ℝ) :
    Except PyError FizzmeterPre :=
  match s.cal_time with
  | none => Except.error PyError.attributeError
  | some _ => Except.ok { s with bias := s.bias + drift, cal_time := some t_new }

/-- `Fizzmeter.__init__(response_delay, uncertainty, decal_rate_days)`:
sets `response_delay`, `uncertainty`, `bias = 0`, then
`Device.__init__(decal_rate_days * day_sec)` sets `decal_rate` and
`cal_delay = 1` and calls the overriding `Fizzmeter.refresh`, which reads
`self.cal_time` before any code has assigned it. -/
noncomputable def Fizzmeter.init
    (response_delay uncertainty decal_rate_days t_new drift : ℝ) :
    Except PyError Fizzmeter :=
  let pre : FizzmeterPre :=
    { response_delay := response_delay
      uncertainty := uncertainty
      bias := 0
      decal_rate := decal_rate_days * day_sec
      cal_delay := 1
      cal_time := none }
  match Fizzmeter.refreshPre pre t_new drift with
  | Except.error e => Except.error e
  | Except.ok s =>
    match s.cal_time with
    | some ct =>
      Except.ok
        { response_delay := s.response_delay
          uncertainty := s.uncertainty
          bias := s.bias
          decal_rate := s.decal_rate
          cal_delay := s.cal_delay
          cal_time := ct }
    | none => Except.error PyError.attributeError

/-- `Fizzmeter.refresh()` on a fully constructed object:
`dt = now - cal_time`; `bias += normal(0, dt * decal_rate)`;
`cal_time = now`.  `drift` carries the Gaussian sample drawn with standard
deviation `(t_new - s.cal_time) * s.decal_rate`. -/
noncomputable def Fizzmeter.refresh (s : Fizzmeter) (t_new drift : ℝ) : Fizzmeter :=
  { s with bias := s.bias + drift, cal_time := t_new }

/-- `Fizzmeter.measure(fizzer)`: sleep `response_delay`; `self.refresh()`
(mutating the meter); draw `noise = normal(0, uncertainty)`; then evaluate
`fizzer.fizziness + self.bias + noise`.  Reading `fizzer.fizziness` raises
`AttributeError` when that attribute was never assigned; the meter has
already been refreshed by then. -/
noncomputable def Fizzmeter.measure (s : Fizzmeter) (f : Fizzer)
    (t_new drift noise : ℝ) : Except PyError ℝ × Fizzmeter :=
  let s' := Fizzmeter.refresh s t_new drift
  match f.fizziness with
  | none => (Except.error PyError.attributeError, s')
  | some fz => (Except.ok (fz + s'.bias + noise), s')

/-- `Fizzmeter.calibrate()`: sleep `cal_delay`; `bias = 0`; `refresh()`.
The final `refresh` adds a fresh drift sample to the just-zeroed bias. -/
noncomputable def Fizzmeter.calibrate (s : Fizzmeter) (t_new drift : ℝ) : Fizzmeter :=
  Fizzmeter.refresh { s with bias := 0 } t_new drift

/-- State of a `Carbonator`: inherited `Device` fields (set first by
`super().__init__()`, with default `decal_rate = 1e-3`, `cal_delay = 1`),
then `response_delay` and `uncertainty`. -/
structure Carbonator where
  decal_rate : ℝ
  cal_delay : ℝ
  cal_time : ℝ
  response_delay : ℝ
  uncertainty : ℝ

/-- `Carbonator.__init__(response_delay, uncertainty)`:
`Device.__init__()` stores the defaults and calls the overriding
`Carbonator.refresh` (which just stamps `cal_time`); then
`response_delay` and `uncertainty` are stored.  No validation occurs. -/
noncomputable def Carbonator.init (response_delay uncertainty t_new : ℝ) :
    Except PyError Carbonator :=
  Except.ok
    { decal_rate := 1 / 1000
      cal_delay := 1
      cal_time := t_new
      response_delay := response_delay
      uncertainty := uncertainty }

/-- `Carbonator.refresh()`: stamp `cal_time` with the current clock. -/
def Carbonator.refresh (s : Carbonator) (t_new : ℝ) : Carbonator :=
  { s with cal_time := t_new }

/-- `Carbonator.get_uncertainty()`: `refresh()`; return `uncertainty`. -/
def Carbonator.get_uncertainty (s : Carbonator) (t_new : ℝ) : ℝ × Carbonator :=
  let s' := Carbonator.refresh s t_new
  (s'.uncertainty, s')

/-- `Carbonator.carbonate(fizzer, carbonation)`: draws
`noise = normal(0, self.get_uncertainty())` and then does nothing with it:
the sample is bound to a local and discarded, `fizzer.add_carbonation` is
never called, and the fizzer is returned untouched.  Only the carbonator
itself changes (its `cal_time`, via `get_uncertainty`'s `refresh`). -/
def Carbonator.carbonate (s : Carbonator) (f : Fizzer)
    (carbonation t_new noise : ℝ) : Carbonator × Fizzer :=
  let u := Carbonator.get_uncertainty s t_new
  (u.2, f)

/-- The public operations of a `Fizzer` (the methods of the Python class). -/
inductive FizzerOp where
  | refresh
  | add_carbonation (amount : ℝ)
  | get_carbonation
  | get_fizziness

/-- One public call on a `Fizzer` at clock time `t_new`.  When the call
raises (`ZeroDivisionError` for `time_constant_sec = 0`), the exception
propagates before any field is written, so the state is unchanged. -/
noncomputable def Fizzer.step (s : Fizzer) : FizzerOp → ℝ → Fizzer
  | FizzerOp.refresh, t_new => Fizzer.refresh s t_new
  | FizzerOp.add_carbonation a, t_new => Fizzer.add_carbonation s a t_new
  | FizzerOp.get_carbonation, t_new =>
    match Fizzer.get_carbonation s t_new with
    | Except.ok (_, s') => s'
    | Except.error _ => s
  | FizzerOp.get_fizziness, t_new =>
    match Fizzer.get_fizziness s t_new with
    | Except.ok (_, s') => s'
    | Except.error _ => s

/-- The public operations of a `Fizzmeter`, each carrying the Gaussian
samples its body draws. -/
inductive FizzmeterOp where
  | refresh (drift : ℝ)
  | measure (f : Fizzer) (drift noise : ℝ)
  | calibrate (drift : ℝ)

/-- One public call on a `Fizzmeter` at clock time `t_new`.  `measure`
refreshes the meter before it reads `fizzer.fizziness`, so the meter state
advances even when that read raises. -/
noncomputable def Fizzmeter.step (s : Fizzmeter) : FizzmeterOp → ℝ → Fizzmeter
  | FizzmeterOp.refresh d, t_new => Fizzmeter.refresh s t_new d
  | FizzmeterOp.measure f d n, t_new => (Fizzmeter.measure s f t_new d n).2
  | FizzmeterOp.calibrate d, t_new => Fizzmeter.calibrate s t_new d

/-- The public operations of a `Carbonator`. -/
inductive CarbonatorOp where
  | refresh
  | get_uncertainty
  | carbonate (f : Fizzer) (amount noise : ℝ)

/-- One public call on a `Carbonator` at clock time `t_new`. -/
def Carbonator.step (s : Carbonator) : CarbonatorOp → ℝ → Carbonator
  | CarbonatorOp.refresh, t_new => Carbonator.refresh s t_new
  | CarbonatorOp.get_uncertainty, t_new => (Carbonator.get_uncertainty s t_new).2
  | CarbonatorOp.carbonate f a n, t_new => (Carbonator.carbonate s f a t_new n).1

/-- Run a sequence of public calls, each paired with the clock reading at
which it happens, from a given state. -/
def runOps {σ α : Type} (step : σ → α → ℝ → σ) : σ → List (α × ℝ) → σ
  | s, [] => s
  | s, p :: rest => runOps step (step s p.1 p.2) rest

/-- The `Fizzer` states reachable from a constructor call by public
methods only. -/
inductive Fizzer.Reachable : Fizzer → Prop where
  | init (c T t : ℝ) (s : Fizzer) (h : Fizzer.init c T t = Except.ok s) :
      Fizzer.Reachable s
  | refresh (s : Fizzer) (h : Fizzer.Reachable s) (t : ℝ) :
      Fizzer.Reachable (Fizzer.refresh s t)
  | add_carbonation (s : Fizzer) (h : Fizzer.Reachable s) (a t : ℝ) :
      Fizzer.Reachable (Fizzer.add_carbonation s a t)
  | get_carbonation (s : Fizzer) (h : Fizzer.Reachable s) (t v : ℝ) (s' : Fizzer)
      (h2 : Fizzer.get_carbonation s t = Except.ok (v, s')) :
      Fizzer.Reachable s'
  | get_fizziness (s : Fizzer) (h : Fizzer.Reachable s) (t v : ℝ) (s' : Fizzer)
      (h2 : Fizzer.get_fizziness s t = Except.ok (v, s')) :
      Fizzer.Reachable s'

/-! ### Helper lemmas -/

/-- Unfolding of a successful `get_carbonation` call. -/
theorem Fizzer.get_carbonation_of_ne (s : Fizzer) (t_new : ℝ)
    (hT : s.time_constant_sec ≠ 0) :
    Fizzer.get_carbonation s t_new =
      Except.ok (s.carbonation * Real.exp (-((t_new - s.cal_time) / s.time_constant_sec)),
        { s with
          carbonation :=
            s.carbonation * Real.exp (-((t_new - s.cal_time) / s.time_constant_sec)),
          cal_time := t_new }) := by
  simp [Fizzer.get_carbonation, hT]

/-- A successful `get_carbonation` preserves the (absent) `fizziness`
attribute. -/
theorem Fizzer.get_carbonation_fizziness (s : Fizzer) (t v : ℝ) (s' : Fizzer)
    (h : Fizzer.get_carbonation s t = Except.ok (v, s')) :
    s'.fizziness = s.fizziness := by
  by_cases hT : s.time_constant_sec = 0
  · simp [Fizzer.get_carbonation, hT] at h
  · rw [Fizzer.get_carbonation_of_ne s t hT] at h
    simp only [Except.ok.injEq, Prod.mk.injEq] at h
    rw [← h.2]

/-- No reachable `Fizzer` state ever has a `fizziness` attribute: the
constructor does not assign it and no public method does. -/
theorem Fizzer.reachable_fizziness_none (s : Fizzer) (h : Fizzer.Reachable s) :
    s.fizziness = none := by
  induction h with
  | init c T t s h =>
    simp only [Fizzer.init, Except.ok.injEq] at h
    rw [← h]
  | refresh s h t ih => exact ih
  | add_carbonation s h a t ih => exact ih
  | get_carbonation s h t v s' h2 ih =>
    rw [Fizzer.get_carbonation_fizziness s t v s' h2, ih]
  | get_fizziness s h t v s' h2 ih =>
    unfold Fizzer.get_fizziness at h2
    cases h3 : Fizzer.get_carbonation s t with
    | error e => rw [h3] at h2; simp at h2
    | ok p =>
      rw [h3] at h2
      simp only [Except.ok.injEq, Prod.mk.injEq] at h2
      rw [← h2.2, Fizzer.get_carbonation_fizziness s t p.1 p.2 (by rw [h3]), ih]

/-- Any single `Fizzer` call keeps `cal_time` between the old value and
the clock reading, provided the clock has not gone backwards. -/
theorem Fizzer.step_cal_time_between (s : Fizzer) (op : FizzerOp) (t : ℝ)
    (h : s.cal_time ≤ t) :
    s.cal_time ≤ (Fizzer.step s op t).cal_time ∧ (Fizzer.step s op t).cal_time ≤ t := by
  cases op with
  | refresh => exact ⟨h, le_refl t⟩
  | add_carbonation a => exact ⟨h, le_refl t⟩
  | get_carbonation =>
    by_cases hT : s.time_constant_sec = 0
    · have hst : Fizzer.step s FizzerOp.get_carbonation t = s := by
        simp [Fizzer.step, Fizzer.get_carbonation, hT]
      rw [hst]; exact ⟨le_refl _, h⟩
    · have hst : (Fizzer.step s FizzerOp.get_carbonation t).cal_time = t := by
        simp [Fizzer.step, Fizzer.get_carbonation_of_ne s t hT]
      rw [hst]; exact ⟨h, le_refl t⟩
  | get_fizziness =>
    by_cases hT : s.time_constant_sec = 0
    · have hst : Fizzer.step s FizzerOp.get_fizziness t = s := by
        simp [Fizzer.step, Fizzer.get_fizziness, Fizzer.get_carbonation, hT]
      rw [hst]; exact ⟨le_refl _, h⟩
    · have hst : (Fizzer.step s FizzerOp.get_fizziness t).cal_time = t := by
        simp [Fizzer.step, Fizzer.get_fizziness, Fizzer.get_carbonation_of_ne s t hT]
      rw [hst]; exact ⟨h, le_refl t⟩

/-- Any single `Fizzmeter` call sets `cal_time` to the clock reading. -/
theorem Fizzmeter.step_cal_time_eq (s : Fizzmeter) (op : FizzmeterOp) (t : ℝ) :
    (Fizzmeter.step s op t).cal_time = t := by
  cases op with
  | refresh d => rfl
  | measure f d n =>
    show (Fizzmeter.measure s f t d n).2.cal_time = t
    unfold Fizzmeter.measure
    cases f.fizziness <;> rfl
  | calibrate d => rfl

/-- Any single `Carbonator` call sets `cal_time` to the clock reading. -/
theorem Carbonator.step_cal_time_stamp (s : Carbonator) (op : CarbonatorOp) (t : ℝ) :
    (Carbonator.step s op t).cal_time = t := by
  cases op <;> rfl

/-- Weaken the head of a `≤`-chain. -/
theorem chain_le_of_le {a b : ℝ} (h : a ≤ b) {l : List ℝ}
    (hc : List.Chain (fun x y => x ≤ y) b l) :
    List.Chain (fun x y => x ≤ y) a l := by
  cases hc with
  | nil => exact List.Chain.nil
  | cons hb hl => exact List.Chain.cons (le_trans h hb) hl

/-- Generic monotonicity of `cal_time` along a run: if every single step
keeps `cal_time` between its old value and the clock reading, and the
clock readings never decrease (starting no earlier than the current
`cal_time`), then `cal_time` never decreases across the whole run. -/
theorem runOps_cal_time_mono {σ α : Type} (step : σ → α → ℝ → σ) (ct : σ → ℝ)
    (hstep : ∀ s op t, ct s ≤ t → ct s ≤ ct (step s op t) ∧ ct (step s op t) ≤ t)
    (ops : List (α × ℝ)) (s : σ)
    (h : List.Chain (fun x y => x ≤ y) (ct s) (ops.map Prod.snd)) :
    ct s ≤ ct (runOps step s ops) := by
  induction ops generalizing s with
  | nil => exact le_refl _
  | cons p rest ih =>
    rw [List.map_cons] at h
    cases h with
    | cons h1 h2 =>
      have hs := hstep s p.1 p.2 h1
      exact le_trans hs.1 (ih (step s p.1 p.2) (chain_le_of_le hs.2 h2))

/-! ### Claim theorems -/

/-- Claim C1: for a Fizzer with time constant T > 0 and elapsed time
Δt = t − cal_time ≥ 0, `get_carbonation()` returns c0·exp(−Δt/T), stores
that value back into the carbonation field, and sets the calibration time
to the current time. -/
theorem C1_get_carbonation_decay (s : Fizzer) (t : ℝ)
    (hT : 0 < s.time_constant_sec) (hdt : s.cal_time ≤ t) :
    Fizzer.get_carbonation s t =
      Except.ok (s.carbonation * Real.exp (-((t - s.cal_time) / s.time_constant_sec)),
        { s with
          carbonation :=
            s.carbonation * Real.exp (-((t - s.cal_time) / s.time_constant_sec)),
          cal_time := t }) :=
  Fizzer.get_carbonation_of_ne s t (ne_of_gt hT)

/-- Witness for C1 at a concrete Fizzer (carbonation 1, time constant one
day, calibrated at time 0) read one day later. -/
theorem C1_witness :
    (0:ℝ) < 1 * day_sec ∧ (0:ℝ) ≤ (86400:ℝ) ∧
    Fizzer.get_carbonation ⟨1, 1 * day_sec, 0, 1, 0, none⟩ 86400 =
      Except.ok (1 * Real.exp (-((86400 - 0) / (1 * day_sec))),
        ⟨1 * Real.exp (-((86400 - 0) / (1 * day_sec))), 1 * day_sec, 0, 1, 86400, none⟩) :=
  ⟨by norm_num [day_sec], by norm_num,
    C1_get_carbonation_decay ⟨1, 1 * day_sec, 0, 1, 0, none⟩ 86400
      (show (0:ℝ) < 1 * day_sec by norm_num [day_sec])
      (show (0:ℝ) ≤ 86400 by norm_num)⟩

/-- Claim C2 counterexample: a Fizzmeter one day past its calibration
time with decal_rate 1, whose trailing `refresh()` draws the drift sample
1 (the Gaussian has standard deviation 86400·1 > 0, so 1 is attainable):
after `calibrate()` the bias is 1, not 0. -/
theorem C2_counterexample :
    (Fizzmeter.calibrate ⟨1, 1, 5, 1, 1, 0⟩ 86400 1).bias ≠ 0 := by
  norm_num [Fizzmeter.calibrate, Fizzmeter.refresh]

/-- Claim C2 (amended): after `calibrate()` returns, the bias equals
exactly the Gaussian drift sample added by the trailing `refresh()` — so
it is 0 precisely when that sample is 0 (for instance when no time has
elapsed since the last refresh), not for every prior state. -/
theorem C2_calibrate_bias (s : Fizzmeter) (t drift : ℝ) :
    (Fizzmeter.calibrate s t drift).bias = drift := by
  simp [Fizzmeter.calibrate, Fizzmeter.refresh]

/-- Claim C3: the fizziness map `shifted_logistic` is strictly
monotonically increasing, bounded in the open interval (−1, 1) for every
real argument, and sends 0 to 0. -/
theorem C3_shifted_logistic_props :
    StrictMono shifted_logistic ∧
      (∀ x : ℝ, -1 < shifted_logistic x ∧ shifted_logistic x < 1) ∧
      shifted_logistic 0 = 0 := by
  refine ⟨?_, ?_, ?_⟩
  · intro x y hxy
    have hy : 0 < 1 + Real.exp (-y) := by positivity
    have hlt : 1 + Real.exp (-y) < 1 + Real.exp (-x) := by
      have := Real.exp_lt_exp.mpr (neg_lt_neg hxy)
      linarith
    have h2 : 2 / (1 + Real.exp (-x)) < 2 / (1 + Real.exp (-y)) :=
      div_lt_div_of_pos_left (by norm_num) hy hlt
    unfold shifted_logistic
    linarith
  · intro x
    have hx : 0 < Real.exp (-x) := Real.exp_pos _
    have h1 : 0 < 1 + Real.exp (-x) := by positivity
    constructor
    · have h2 : 0 < 2 / (1 + Real.exp (-x)) := by positivity
      unfold shifted_logistic; linarith
    · have h2 : 2 / (1 + Real.exp (-x)) < 2 := by
        rw [div_lt_iff₀ h1]; linarith
      unfold shifted_logistic; linarith
  · unfold shifted_logistic
    rw [neg_zero, Real.exp_zero]
    norm_num

/-- Claim C4: with zero elapsed time between them, two consecutive
`get_carbonation()` calls return the same value, and the stored
carbonation (indeed the whole state) is unchanged between the calls. -/
theorem C4_get_carbonation_idempotent (s : Fizzer) (t : ℝ)
    (hT : 0 < s.time_constant_sec) :
    ∃ v : ℝ, ∃ s1 : Fizzer,
      Fizzer.get_carbonation s t = Except.ok (v, s1) ∧
      Fizzer.get_carbonation s1 t = Except.ok (v, s1) := by
  have hne : s.time_constant_sec ≠ 0 := ne_of_gt hT
  refine ⟨_, _, Fizzer.get_carbonation_of_ne s t hne, ?_⟩
  rw [Fizzer.get_carbonation_of_ne
    { s with
      carbonation := s.carbonation * Real.exp (-((t - s.cal_time) / s.time_constant_sec)),
      cal_time := t } t hne]
  simp

/-- Witness for C4 at a concrete Fizzer with a one-day time constant. -/
theorem C4_witness :
    (0:ℝ) < 1 * day_sec ∧
    (∃ v : ℝ, ∃ s1 : Fizzer,
      Fizzer.get_carbonation ⟨1, 1 * day_sec, 0, 1, 0, none⟩ 0 = Except.ok (v, s1) ∧
      Fizzer.get_carbonation s1 0 = Except.ok (v, s1)) :=
  ⟨by norm_num [day_sec],
    C4_get_carbonation_idempotent ⟨1, 1 * day_sec, 0, 1, 0, none⟩ 0
      (show (0:ℝ) < 1 * day_sec by norm_num [day_sec])⟩

/-- Claim C5 counterexample: constructing a Carbonator with a negative
response delay and a negative uncertainty succeeds, returning an object
and raising nothing — rather than failing with an InvalidConfiguration
error at construction time. -/
theorem C5_counterexample :
    Carbonator.init (-1) (-1) 0 = Except.ok ⟨1 / 1000, 1, 0, -1, -1⟩ := rfl

/-- Claim C5 (amended): the code performs no configuration validation and
defines no InvalidConfiguration error at all: Carbonator and Fizzer
construction succeeds for every argument value — negative rates, delays
and uncertainties included — storing the parameters unchanged. -/
theorem C5_no_validation :
    (∀ rd u t : ℝ, Carbonator.init rd u t = Except.ok ⟨1 / 1000, 1, t, rd, u⟩) ∧
    (∀ c T t : ℝ, Fizzer.init c T t = Except.ok ⟨c, T * day_sec, 0, 1, t, none⟩) :=
  ⟨fun _ _ _ => rfl, fun _ _ _ => rfl⟩

/-- Claim C6 counterexample: constructing a Fizzer with
time_constant_days = 0 succeeds — no error is raised at construction
time. -/
theorem C6_counterexample :
    Fizzer.init 1 0 0 = Except.ok ⟨1, 0 * day_sec, 0, 1, 0, none⟩ := rfl

/-- Claim C6 (amended): a Fizzer with time_constant = 0 is NOT rejected
at construction — the constructor accepts it and stores
time_constant_sec = 0; the division by zero only surfaces later, when
`get_carbonation` raises ZeroDivisionError (so no NaN or infinite
carbonation value is produced, but only because the call raises instead
of returning). -/
theorem C6_zero_time_constant (c t u : ℝ) :
    ∃ s : Fizzer, Fizzer.init c 0 t = Except.ok s ∧ s.time_constant_sec = 0 ∧
      Fizzer.get_carbonation s u = Except.error PyError.zeroDivisionError := by
  refine ⟨_, rfl, ?_, ?_⟩
  · exact zero_mul day_sec
  · simp [Fizzer.get_carbonation, zero_mul]

/-- Claim C7: `Carbonator.carbonate(fizzer, amount)` leaves the target
Fizzer completely unchanged — the noise sample is drawn and discarded,
and `fizzer.add_carbonation` is never called. -/
theorem C7_carbonate_noop (s : Carbonator) (f : Fizzer) (amount t noise : ℝ) :
    (Carbonator.carbonate s f amount t noise).2 = f := rfl

/-- Claim C8: with a monotonically non-decreasing time source, cal_time
is monotonically non-decreasing along every sequence of public operations
on each device, and the drift-modelling operations (carbonation decay in
`get_carbonation`, bias drift in `Fizzmeter.refresh`) update it to the
current time before returning. -/
theorem C8_cal_time_invariant
    (s : Fizzer) (m : Fizzmeter) (c : Carbonator)
    (fops : List (FizzerOp × ℝ)) (mops : List (FizzmeterOp × ℝ))
    (cops : List (CarbonatorOp × ℝ)) (t drift : ℝ)
    (hf : List.Chain (fun x y => x ≤ y) s.cal_time (fops.map Prod.snd))
    (hm : List.Chain (fun x y => x ≤ y) m.cal_time (mops.map Prod.snd))
    (hc : List.Chain (fun x y => x ≤ y) c.cal_time (cops.map Prod.snd)) :
    s.cal_time ≤ (runOps Fizzer.step s fops).cal_time ∧
    m.cal_time ≤ (runOps Fizzmeter.step m mops).cal_time ∧
    c.cal_time ≤ (runOps Carbonator.step c cops).cal_time ∧
    (∀ v : ℝ, ∀ s' : Fizzer,
      Fizzer.get_carbonation s t = Except.ok (v, s') → s'.cal_time = t) ∧
    (Fizzmeter.refresh m t drift).cal_time = t := by
  refine ⟨?_, ?_, ?_, ?_, rfl⟩
  · exact runOps_cal_time_mono Fizzer.step Fizzer.cal_time Fizzer.step_cal_time_between fops s hf
  · refine runOps_cal_time_mono Fizzmeter.step Fizzmeter.cal_time ?_ mops m hm
    intro s' op u h
    rw [Fizzmeter.step_cal_time_eq]
    exact ⟨h, le_refl u⟩
  · refine runOps_cal_time_mono Carbonator.step Carbonator.cal_time ?_ cops c hc
    intro s' op u h
    rw [Carbonator.step_cal_time_stamp]
    exact ⟨h, le_refl u⟩
  · intro v s' h
    by_cases hT : s.time_constant_sec = 0
    · simp [Fizzer.get_carbonation, hT] at h
    · rw [Fizzer.get_carbonation_of_ne s t hT] at h
      simp only [Except.ok.injEq, Prod.mk.injEq] at h
      rw [← h.2]

/-- Witness for C8 at concrete device states and empty operation lists. -/
theorem C8_witness :
    (⟨1, 86400, 0, 1, 0, none⟩ : Fizzer).cal_time ≤
      (runOps Fizzer.step (⟨1, 86400, 0, 1, 0, none⟩ : Fizzer) []).cal_time ∧
    (⟨1, 1, 0, 0, 1, 0⟩ : Fizzmeter).cal_time ≤
      (runOps Fizzmeter.step (⟨1, 1, 0, 0, 1, 0⟩ : Fizzmeter) []).cal_time ∧
    (⟨1 / 1000, 1, 0, 1, 1⟩ : Carbonator).cal_time ≤
      (runOps Carbonator.step (⟨1 / 1000, 1, 0, 1, 1⟩ : Carbonator) []).cal_time ∧
    (∀ v : ℝ, ∀ s' : Fizzer,
      Fizzer.get_carbonation ⟨1, 86400, 0, 1, 0, none⟩ 0 = Except.ok (v, s') →
        s'.cal_time = 0) ∧
    (Fizzmeter.refresh ⟨1, 1, 0, 0, 1, 0⟩ 0 2).cal_time = 0 :=
  C8_cal_time_invariant ⟨1, 86400, 0, 1, 0, none⟩ ⟨1, 1, 0, 0, 1, 0⟩
    ⟨1 / 1000, 1, 0, 1, 1⟩ [] [] [] 0 2 List.Chain.nil List.Chain.nil List.Chain.nil

/-- Claim C9: for every choice of constructor arguments (and of clock
reading and drift sample), constructing a Fizzmeter raises
AttributeError: `Device.__init__` invokes the overriding
`Fizzmeter.refresh`, which reads `self.cal_time` before any code has
assigned it, so no Fizzmeter instance is ever produced. -/
theorem C9_fizzmeter_init_raises
    (response_delay uncertainty decal_rate_days t_new drift : ℝ) :
    Fizzmeter.init response_delay uncertainty decal_rate_days t_new drift =
      Except.error PyError.attributeError := rfl

/-- Claim C10: measuring any Fizzer that was produced by the constructor
and mutated only through its public methods raises AttributeError,
because `measure` reads `fizzer.fizziness` as a field and no Fizzer code
path ever assigns that attribute. -/
theorem C10_measure_raises (f : Fizzer) (hf : Fizzer.Reachable f)
    (m : Fizzmeter) (t drift noise : ℝ) :
    (Fizzmeter.measure m f t drift noise).1 = Except.error PyError.attributeError := by
  have h := Fizzer.reachable_fizziness_none f hf
  unfold Fizzmeter.measure
  rw [h]

/-- Witness for C10: a freshly constructed Fizzer measured by a concrete
Fizzmeter state. -/
theorem C10_witness :
    (Fizzmeter.measure ⟨1, 1, 0, 0, 1, 0⟩ ⟨1, 1 * day_sec, 0, 1, 0, none⟩ 1 0 0).1 =
      Except.error PyError.attributeError :=
  C10_measure_raises ⟨1, 1 * day_sec, 0, 1, 0, none⟩
    (Fizzer.Reachable.init 1 1 0 ⟨1, 1 * day_sec, 0, 1, 0, none⟩ rfl)
    ⟨1, 1, 0, 0, 1, 0⟩ 1 0 0

end DummyDevices
